import Mathlib

/-!
Verification development for a signed-distance-function (SDF) modeling kernel.

The kernel represents 2D/3D shapes as signed distance functions: primitives
(circle, box, polygon, sphere, cylinder, ...) and combinators (union,
difference, transform, array, rotate, rotate-copy, solid of revolution,
extrusion) build an expression tree whose nodes expose
`Evaluate : point → ℝ` and `BoundingBox`.

Go `float64` is idealised as `ℝ`.  Functions from the repository's source
files (`sdf2.go`, the 3D SDF file, `3mf.go`) are translated definition by
definition, keeping their names.  Small helpers that the source calls but
whose files are not available (vector/matrix arithmetic, `SawTooth`,
`PolarToXY`, `math.Atan2`, `Triangle3`) are modelled from the specification;
each such definition carries a doc comment saying so.
-/

open scoped Classical

noncomputable section

/-- Modelled from the spec: the largest finite float64 (`math.MaxFloat64`),
used by the source as the starting accumulator of min-folds. -/
def maxFloat64 : ℝ := 2 ^ 1024 - 2 ^ 971

/-- Modelled from the spec: `PI` (math.Pi idealised as the real π). -/
def PI : ℝ := Real.pi

/-- Modelled from the spec: `TAU` = 2π, a full turn. -/
def TAU : ℝ := 2 * Real.pi

/-- Modelled from the spec: Go `math.Mod(x, y)` for the nonnegative
arguments the source uses it with (`x ≥ 0`, `y > 0`), where it agrees
with the floor-based remainder. -/
def goMod (x y : ℝ) : ℝ := x - y * ⌊x / y⌋

/-- Modelled from the spec: 2D vector of float64 components. -/
structure V2 where
  X : ℝ
  Y : ℝ

/-- Modelled from the spec: 3D vector of float64 components. -/
structure V3 where
  X : ℝ
  Y : ℝ
  Z : ℝ

/-- Modelled from the spec: componentwise addition. -/
def V2.Add (a b : V2) : V2 := ⟨a.X + b.X, a.Y + b.Y⟩

/-- Modelled from the spec: componentwise subtraction. -/
def V2.Sub (a b : V2) : V2 := ⟨a.X - b.X, a.Y - b.Y⟩

/-- Modelled from the spec: componentwise product. -/
def V2.Mul (a b : V2) : V2 := ⟨a.X * b.X, a.Y * b.Y⟩

/-- Modelled from the spec: componentwise absolute value. -/
def V2.Abs (a : V2) : V2 := ⟨|a.X|, |a.Y|⟩

/-- Modelled from the spec: negation. -/
def V2.Negate (a : V2) : V2 := ⟨-a.X, -a.Y⟩

/-- Modelled from the spec: scalar multiple. -/
def V2.MulScalar (a : V2) (k : ℝ) : V2 := ⟨a.X * k, a.Y * k⟩

/-- Modelled from the spec: subtract a scalar from each component. -/
def V2.SubScalar (a : V2) (k : ℝ) : V2 := ⟨a.X - k, a.Y - k⟩

/-- Modelled from the spec: add a scalar to each component. -/
def V2.AddScalar (a : V2) (k : ℝ) : V2 := ⟨a.X + k, a.Y + k⟩

/-- Modelled from the spec: dot product. -/
def V2.Dot (a b : V2) : ℝ := a.X * b.X + a.Y * b.Y

/-- Modelled from the spec: squared euclidean length. -/
def V2.Length2 (a : V2) : ℝ := a.X * a.X + a.Y * a.Y

/-- Modelled from the spec: euclidean length. -/
def V2.Length (a : V2) : ℝ := Real.sqrt a.Length2

/-- Modelled from the spec: componentwise minimum. -/
def V2.Min (a b : V2) : V2 := ⟨min a.X b.X, min a.Y b.Y⟩

/-- Modelled from the spec: componentwise maximum. -/
def V2.Max (a b : V2) : V2 := ⟨max a.X b.X, max a.Y b.Y⟩

/-- Modelled from the spec: unit vector in the direction of `a`
(division by a zero length yields the zero vector, per the spec's
defined-result policy for degenerate normalization). -/
def V2.Normalize (a : V2) : V2 := ⟨a.X / a.Length, a.Y / a.Length⟩

/-- Modelled from the spec: componentwise comparison within a tolerance
(`V2.Equals`); with tolerance 0 this is exact equality. -/
def V2.Equals (a b : V2) (tolerance : ℝ) : Prop :=
  |a.X - b.X| ≤ tolerance ∧ |a.Y - b.Y| ≤ tolerance

/-- Modelled from the spec: componentwise addition. -/
def V3.Add (a b : V3) : V3 := ⟨a.X + b.X, a.Y + b.Y, a.Z + b.Z⟩

/-- Modelled from the spec: componentwise subtraction. -/
def V3.Sub (a b : V3) : V3 := ⟨a.X - b.X, a.Y - b.Y, a.Z - b.Z⟩

/-- Modelled from the spec: componentwise product. -/
def V3.Mul (a b : V3) : V3 := ⟨a.X * b.X, a.Y * b.Y, a.Z * b.Z⟩

/-- Modelled from the spec: componentwise absolute value. -/
def V3.Abs (a : V3) : V3 := ⟨|a.X|, |a.Y|, |a.Z|⟩

/-- Modelled from the spec: negation. -/
def V3.Negate (a : V3) : V3 := ⟨-a.X, -a.Y, -a.Z⟩

/-- Modelled from the spec: scalar multiple. -/
def V3.MulScalar (a : V3) (k : ℝ) : V3 := ⟨a.X * k, a.Y * k, a.Z * k⟩

/-- Modelled from the spec: subtract a scalar from each component. -/
def V3.SubScalar (a : V3) (k : ℝ) : V3 := ⟨a.X - k, a.Y - k, a.Z - k⟩

/-- Modelled from the spec: componentwise maximum with another vector. -/
def V3.Max (a b : V3) : V3 := ⟨max a.X b.X, max a.Y b.Y, max a.Z b.Z⟩

/-- Modelled from the spec: componentwise minimum with another vector. -/
def V3.Min (a b : V3) : V3 := ⟨min a.X b.X, min a.Y b.Y, min a.Z b.Z⟩

/-- Modelled from the spec: largest component of the vector. -/
def V3.MaxComponent (a : V3) : ℝ := max a.X (max a.Y a.Z)

/-- Modelled from the spec: squared euclidean length. -/
def V3.Length2 (a : V3) : ℝ := a.X * a.X + a.Y * a.Y + a.Z * a.Z

/-- Modelled from the spec: euclidean length. -/
def V3.Length (a : V3) : ℝ := Real.sqrt a.Length2

/-- Modelled from the spec: a set (list) of 2D vectors. -/
def V2Set : Type := List V2

/-- Modelled from the spec: componentwise minimum over a vertex set
(the source only applies it to nonempty sets). -/
def V2Set.Min (s : V2Set) : V2 :=
  match s with
  | [] => ⟨0, 0⟩
  | v :: rest => rest.foldl V2.Min v

/-- Modelled from the spec: componentwise maximum over a vertex set. -/
def V2Set.Max (s : V2Set) : V2 :=
  match s with
  | [] => ⟨0, 0⟩
  | v :: rest => rest.foldl V2.Max v

/-- Modelled from the spec: axis-aligned 2D box (min corner, max corner). -/
structure Box2 where
  Min : V2
  Max : V2

/-- Modelled from the spec: axis-aligned 3D box (min corner, max corner). -/
structure Box3 where
  Min : V3
  Max : V3

/-- Modelled from the spec: extend a box to contain another
(min of mins, max of maxes). -/
def Box2.Extend (a b : Box2) : Box2 := ⟨a.Min.Min b.Min, a.Max.Max b.Max⟩

/-- Modelled from the spec: translate a box by a vector. -/
def Box2.Translate (a : Box2) (v : V2) : Box2 := ⟨a.Min.Add v, a.Max.Add v⟩

/-- Modelled from the spec: the four corner vertices of a 2D box. -/
def Box2.Vertices (a : Box2) : V2Set :=
  [a.Min, ⟨a.Min.X, a.Max.Y⟩, ⟨a.Max.X, a.Min.Y⟩, a.Max]

/-- Modelled from the spec: membership of a point in an axis-aligned box
("axis-aligned box guaranteed to contain every point where
evaluate(point) ≤ 0"). -/
def Box2.Contains (a : Box2) (p : V2) : Prop :=
  a.Min.X ≤ p.X ∧ p.X ≤ a.Max.X ∧ a.Min.Y ≤ p.Y ∧ p.Y ≤ a.Max.Y

/-- Modelled from the spec: extend a box to contain another. -/
def Box3.Extend (a b : Box3) : Box3 := ⟨a.Min.Min b.Min, a.Max.Max b.Max⟩

/-- Modelled from the spec: translate a box by a vector. -/
def Box3.Translate (a : Box3) (v : V3) : Box3 := ⟨a.Min.Add v, a.Max.Add v⟩

/-- Modelled from the spec: the eight corner vertices of a 3D box. -/
def Box3.Vertices (a : Box3) : List V3 :=
  [a.Min, ⟨a.Min.X, a.Min.Y, a.Max.Z⟩, ⟨a.Min.X, a.Max.Y, a.Min.Z⟩,
   ⟨a.Min.X, a.Max.Y, a.Max.Z⟩, ⟨a.Max.X, a.Min.Y, a.Min.Z⟩,
   ⟨a.Max.X, a.Min.Y, a.Max.Z⟩, ⟨a.Max.X, a.Max.Y, a.Min.Z⟩, a.Max]

/-- Modelled from the spec: componentwise min over a list of 3D vectors. -/
def V3SetMin (s : List V3) : V3 :=
  match s with
  | [] => ⟨0, 0, 0⟩
  | v :: rest => rest.foldl V3.Min v

/-- Modelled from the spec: componentwise max over a list of 3D vectors. -/
def V3SetMax (s : List V3) : V3 :=
  match s with
  | [] => ⟨0, 0, 0⟩
  | v :: rest => rest.foldl V3.Max v

/-- Modelled from the spec: 3×3 homogeneous matrix for 2D affine transforms. -/
abbrev M33 : Type := Matrix (Fin 3) (Fin 3) ℝ

/-- Modelled from the spec: 4×4 homogeneous matrix for 3D affine transforms. -/
abbrev M44 : Type := Matrix (Fin 4) (Fin 4) ℝ

/-- Modelled from the spec: apply a homogeneous 2D transform to a point
(the translation column participates; the bottom row is not read,
matching the affine application). -/
def M33.MulPosition (a : M33) (b : V2) : V2 :=
  ⟨a.mulVec ![b.X, b.Y, 1] 0, a.mulVec ![b.X, b.Y, 1] 1⟩

/-- Modelled from the spec: apply a homogeneous 3D transform to a point. -/
def M44.MulPosition (a : M44) (b : V3) : V3 :=
  ⟨a.mulVec ![b.X, b.Y, b.Z, 1] 0, a.mulVec ![b.X, b.Y, b.Z, 1] 1,
   a.mulVec ![b.X, b.Y, b.Z, 1] 2⟩

/-- Modelled from the spec: matrix inverse (adjugate over determinant,
as Mathlib's `Matrix.inv`). -/
def M33.Inverse (a : M33) : M33 := a⁻¹

/-- Modelled from the spec: matrix inverse. -/
def M44.Inverse (a : M44) : M44 := a⁻¹

/-- Modelled from the spec: the 2D identity transform. -/
def Identity2d : M33 := 1

/-- Modelled from the spec: the 3D identity transform. -/
def Identity3d : M44 := 1

/-- Modelled from the spec: transform every vertex of a vertex set. -/
def M33.MulVertices (a : M33) (v : V2Set) : V2Set := List.map a.MulPosition v

/-- Modelled from the spec: transform every vertex of a vertex set. -/
def M44.MulVertices (a : M44) (v : List V3) : List V3 := List.map a.MulPosition v

/-- Modelled from the spec: transformed bounding box = bounding box of the
four transformed corners of the child's box. -/
def M33.MulBox (a : M33) (b : Box2) : Box2 :=
  ⟨V2Set.Min (a.MulVertices b.Vertices), V2Set.Max (a.MulVertices b.Vertices)⟩

/-- Modelled from the spec: transformed bounding box = bounding box of the
eight transformed corners of the child's box. -/
def M44.MulBox (a : M44) (b : Box3) : Box3 :=
  ⟨V3SetMin (a.MulVertices b.Vertices), V3SetMax (a.MulVertices b.Vertices)⟩

/-- Modelled from the spec: a min-type blend function
`(distanceA, distanceB, blendParameter) → distance`. -/
def MinFunc : Type := ℝ → ℝ → ℝ → ℝ

/-- Modelled from the spec: a max-type blend function. -/
def MaxFunc : Type := ℝ → ℝ → ℝ → ℝ

/-- Modelled from the spec: the default unblended minimum
("default blend is exact minimum (k unused)"). -/
def NormalMin : MinFunc := fun a b _ => min a b

/-- Modelled from the spec: the default unblended maximum. -/
def NormalMax : MaxFunc := fun a b _ => max a b

/-- Modelled from the spec: the sawtooth reduction used by rotate-copy,
mapping an angle into the sector `[0, period)`. -/
def SawTooth (x period : ℝ) : ℝ := x - period * ⌊x / period⌋

/-- Modelled from the spec: polar-to-cartesian conversion. -/
def PolarToXY (r theta : ℝ) : V2 := ⟨r * Real.cos theta, r * Real.sin theta⟩

/-- Modelled from the spec: Go `math.Atan2(y, x)` (signed-zero distinctions
aside), the polar angle of `(x, y)` in `(-π, π]`. -/
def Atan2 (y x : ℝ) : ℝ :=
  if 0 < x then Real.arctan (y / x)
  else if x < 0 then
    (if 0 ≤ y then Real.arctan (y / x) + PI else Real.arctan (y / x) - PI)
  else
    (if 0 < y then PI / 2 else if y < 0 then -(PI / 2) else 0)

/-- The SDF2 interface: `Evaluate(p V2) float64` and `BoundingBox() Box2`. -/
structure SDF2 where
  Evaluate : V2 → ℝ
  BoundingBox : Box2

/-- The SDF3 interface: `Evaluate(p V3) float64` and `BoundingBox() Box3`. -/
structure SDF3 where
  Evaluate : V3 → ℝ
  BoundingBox : Box3

/-- A default SDF2 value (empty shape at the origin), used as the junk value
when projecting out of an `Option`. -/
def defaultSDF2 : SDF2 := ⟨fun _ => 0, ⟨⟨0, 0⟩, ⟨0, 0⟩⟩⟩

/-- A default SDF3 value. -/
def defaultSDF3 : SDF3 := ⟨fun _ => 0, ⟨⟨0, 0, 0⟩, ⟨0, 0, 0⟩⟩⟩

/-- Evaluate a possibly-nil SDF2 (Go `nil` = `none`). -/
def evalOpt2 (o : Option SDF2) (p : V2) : Option ℝ := o.map (·.Evaluate p)

/-- Evaluate a possibly-nil SDF3. -/
def evalOpt3 (o : Option SDF3) (p : V3) : Option ℝ := o.map (·.Evaluate p)

/-- `sdf_box2d` from `sdf2.go`: distance helper for 2D boxes. -/
def sdf_box2d (p s : V2) : ℝ :=
  let p' := p.Abs
  let d := p'.Sub s
  let k := s.Y - s.X
  if 0 < d.X ∧ 0 < d.Y then d.Length
  else if k < p'.Y - p'.X then d.Y
  else d.X

/-- `sdf_box3d` from the 3D SDF source file. -/
def sdf_box3d (p s : V3) : ℝ :=
  let d := (p.Abs).Sub s
  (d.Max ⟨0, 0, 0⟩).Length + min d.MaxComponent 0

/-- `CircleSDF2` from `sdf2.go`. -/
structure CircleSDF2 where
  radius : ℝ
  bb : Box2

/-- `Circle2D` from `sdf2.go`. -/
def Circle2D (radius : ℝ) : CircleSDF2 :=
  let d : V2 := ⟨radius, radius⟩
  { radius := radius, bb := ⟨d.Negate, d⟩ }

/-- `CircleSDF2.Evaluate` from `sdf2.go`. -/
def CircleSDF2.Evaluate (s : CircleSDF2) (p : V2) : ℝ := p.Length - s.radius

/-- `CircleSDF2.BoundingBox` from `sdf2.go`. -/
def CircleSDF2.BoundingBox (s : CircleSDF2) : Box2 := s.bb

/-- Bundle a circle as an SDF2 interface value. -/
def CircleSDF2.toSDF2 (s : CircleSDF2) : SDF2 := ⟨s.Evaluate, s.BoundingBox⟩

/-- `MultiCircleSDF2` from `sdf2.go`. -/
structure MultiCircleSDF2 where
  radius : ℝ
  positions : V2Set
  bb : Box2

/-- `NewMultiCircleSDF2` from `sdf2.go`. -/
def NewMultiCircleSDF2 (radius : ℝ) (positions : V2Set) : MultiCircleSDF2 :=
  let pmin := (V2Set.Min positions).Sub ⟨radius, radius⟩
  let pmax := (V2Set.Max positions).Add ⟨radius, radius⟩
  { radius := radius, positions := positions, bb := ⟨pmin, pmax⟩ }

/-- `MultiCircleSDF2.Evaluate` from `sdf2.go`: minimum distance to the
circles, folded from `math.MaxFloat64`. -/
def MultiCircleSDF2.Evaluate (s : MultiCircleSDF2) (p : V2) : ℝ :=
  s.positions.foldl (fun d posn => min d ((p.Sub posn).Length - s.radius)) maxFloat64

/-- `MultiCircleSDF2.BoundingBox` from `sdf2.go`. -/
def MultiCircleSDF2.BoundingBox (s : MultiCircleSDF2) : Box2 := s.bb

/-- Bundle as an SDF2 interface value. -/
def MultiCircleSDF2.toSDF2 (s : MultiCircleSDF2) : SDF2 := ⟨s.Evaluate, s.BoundingBox⟩

/-- `BoxSDF2` from `sdf2.go`. -/
structure BoxSDF2 where
  size : V2
  round : ℝ
  bb : Box2

/-- `NewBoxSDF2` from `sdf2.go`. -/
def NewBoxSDF2 (size : V2) (round : ℝ) : BoxSDF2 :=
  let size' := size.MulScalar 0.5
  { size := size'.SubScalar round, round := round, bb := ⟨size'.Negate, size'⟩ }

/-- `BoxSDF2.Evaluate` from `sdf2.go`. -/
def BoxSDF2.Evaluate (s : BoxSDF2) (p : V2) : ℝ := sdf_box2d p s.size - s.round

/-- `BoxSDF2.BoundingBox` from `sdf2.go`. -/
def BoxSDF2.BoundingBox (s : BoxSDF2) : Box2 := s.bb

/-- Bundle as an SDF2 interface value. -/
def BoxSDF2.toSDF2 (s : BoxSDF2) : SDF2 := ⟨s.Evaluate, s.BoundingBox⟩

/-- `CutSDF2` from `sdf2.go`: cut an SDF2 along a line. -/
structure CutSDF2 where
  sdf : SDF2
  a : V2
  n : V2
  bb : Box2

/-- `NewCutSDF2` from `sdf2.go`: cut along the line from `a` in direction
`v`; the part to the right of the line remains.  The bounding box is the
child's box unchanged (the source carries a TODO to tighten it). -/
def NewCutSDF2 (sdf : SDF2) (a v : V2) : CutSDF2 :=
  let v' := v.Normalize
  { sdf := sdf, a := a, n := ⟨-v'.Y, v'.X⟩, bb := sdf.BoundingBox }

/-- `CutSDF2.Evaluate` from `sdf2.go`. -/
def CutSDF2.Evaluate (s : CutSDF2) (p : V2) : ℝ :=
  max ((p.Sub s.a).Dot s.n) (s.sdf.Evaluate p)

/-- `CutSDF2.BoundingBox` from `sdf2.go`. -/
def CutSDF2.BoundingBox (s : CutSDF2) : Box2 := s.bb

/-- Bundle as an SDF2 interface value. -/
def CutSDF2.toSDF2 (s : CutSDF2) : SDF2 := ⟨s.Evaluate, s.BoundingBox⟩

/-- `PolySDF2` from `sdf2.go`. -/
structure PolySDF2 where
  vertex : List V2
  vector : List V2
  length : List ℝ
  bb : Box2

/-- `NewPolySDF2` from `sdf2.go`: `nil` (`none`) for fewer than 3 vertices;
otherwise closes the loop when the first and last vertex differ (tolerance
0), precomputes per-segment unit vectors and lengths and the bounding box
over the segment start vertices. -/
def NewPolySDF2 (vertex : List V2) : Option PolySDF2 :=
  let n := vertex.length
  if n < 3 then none
  else
    let v0 := vertex.headD ⟨0, 0⟩
    let vlast := vertex.getLastD ⟨0, 0⟩
    let svertex := if V2.Equals v0 vlast 0 then vertex else vertex ++ [v0]
    let nsegs := svertex.length - 1
    let seg := fun i => ((svertex.getD (i + 1) ⟨0, 0⟩).Sub (svertex.getD i ⟨0, 0⟩))
    let svector := (List.range nsegs).map fun i => (seg i).Normalize
    let slength := (List.range nsegs).map fun i => (seg i).Length
    let starts := (List.range nsegs).map fun i => svertex.getD i ⟨0, 0⟩
    let vmin := starts.foldl V2.Min (svertex.getD 0 ⟨0, 0⟩)
    let vmax := starts.foldl V2.Max (svertex.getD 0 ⟨0, 0⟩)
    some { vertex := svertex, vector := svector, length := slength,
           bb := ⟨vmin, vmax⟩ }

/-- `PolySDF2.Evaluate` from `sdf2.go`: one pass over the edges tracking
the minimum squared distance (three clamped-projection cases) and the
winding number (upward/downward crossing tests); the result is
`±sqrt(min squared distance)`, negative when the winding number is
nonzero. -/
def PolySDF2.Evaluate (s : PolySDF2) (p : V2) : ℝ :=
  let nsegs := s.vertex.length - 1
  let res := (List.range nsegs).foldl
    (fun (acc : ℝ × ℤ) i =>
      let a := s.vertex.getD i ⟨0, 0⟩
      let b := s.vertex.getD (i + 1) ⟨0, 0⟩
      let pa := p.Sub a
      let pb := p.Sub b
      let vi := s.vector.getD i ⟨0, 0⟩
      let li := s.length.getD i 0
      let t := pa.Dot vi
      let dn := pa.Dot ⟨vi.Y, -vi.X⟩
      let dd :=
        if t < 0 then min acc.1 pa.Length2
        else if li < t then min acc.1 pb.Length2
        else min acc.1 (dn * dn)
      let wn :=
        if a.Y ≤ p.Y then
          (if p.Y < b.Y then (if dn < 0 then acc.2 + 1 else acc.2) else acc.2)
        else
          (if b.Y ≤ p.Y then (if 0 < dn then acc.2 - 1 else acc.2) else acc.2)
      (dd, wn))
    (maxFloat64, 0)
  let d := Real.sqrt res.1
  if res.2 ≠ 0 then -d else d

/-- `PolySDF2.BoundingBox` from `sdf2.go`. -/
def PolySDF2.BoundingBox (s : PolySDF2) : Box2 := s.bb

/-- Bundle as an SDF2 interface value. -/
def PolySDF2.toSDF2 (s : PolySDF2) : SDF2 := ⟨s.Evaluate, s.BoundingBox⟩

/-- `TransformSDF2` from `sdf2.go`. -/
structure TransformSDF2 where
  sdf : SDF2
  matrix : M33
  inverse : M33
  bb : Box2

/-- `NewTransformSDF2` from `sdf2.go`: stores the forward matrix, its
precomputed inverse, and the transformed bounding box. -/
def NewTransformSDF2 (sdf : SDF2) (matrix : M33) : TransformSDF2 :=
  { sdf := sdf, matrix := matrix, inverse := matrix.Inverse,
    bb := matrix.MulBox sdf.BoundingBox }

/-- `TransformSDF2.Evaluate` from `sdf2.go`: evaluates the child at the
precomputed inverse applied to the query point. -/
def TransformSDF2.Evaluate (s : TransformSDF2) (p : V2) : ℝ :=
  s.sdf.Evaluate (s.inverse.MulPosition p)

/-- `TransformSDF2.BoundingBox` from `sdf2.go`. -/
def TransformSDF2.BoundingBox (s : TransformSDF2) : Box2 := s.bb

/-- Bundle as an SDF2 interface value. -/
def TransformSDF2.toSDF2 (s : TransformSDF2) : SDF2 := ⟨s.Evaluate, s.BoundingBox⟩

/-- Modelled from the spec: `V2i`, a pair of machine integers. -/
def V2i : Type := ℤ × ℤ

/-- Modelled from the spec: `V3i`, a triple of machine integers. -/
def V3i : Type := ℤ × ℤ × ℤ

/-- `ArraySDF2` from `sdf2.go`. -/
structure ArraySDF2 where
  sdf : SDF2
  num : V2i
  step : V2
  min : MinFunc
  k : ℝ
  bb : Box2

/-- `NewArraySDF2` from `sdf2.go`: `nil` (`none`) when either count is
non-positive; otherwise the default min and the box extended over the
`(count-1)·step` translate. -/
def NewArraySDF2 (sdf : SDF2) (num : V2i) (step : V2) : Option ArraySDF2 :=
  if num.1 ≤ 0 ∨ num.2 ≤ 0 then none
  else
    let bb0 := sdf.BoundingBox
    let bb1 := bb0.Translate (step.Mul ⟨((num.1 - 1 : ℤ) : ℝ), ((num.2 - 1 : ℤ) : ℝ)⟩)
    some { sdf := sdf, num := num, step := step, min := NormalMin, k := 0,
           bb := bb0.Extend bb1 }

/-- `ArraySDF2.Evaluate` from `sdf2.go`: min-fold over the grid of
translated copies, starting from `math.MaxFloat64`. -/
def ArraySDF2.Evaluate (s : ArraySDF2) (p : V2) : ℝ :=
  (List.range s.num.1.toNat).foldl
    (fun d j =>
      (List.range s.num.2.toNat).foldl
        (fun d' k' =>
          let x := p.Sub ⟨(j : ℝ) * s.step.X, (k' : ℝ) * s.step.Y⟩
          s.min d' (s.sdf.Evaluate x) s.k)
        d)
    maxFloat64

/-- `ArraySDF2.BoundingBox` from `sdf2.go`. -/
def ArraySDF2.BoundingBox (s : ArraySDF2) : Box2 := s.bb

/-- Bundle as an SDF2 interface value. -/
def ArraySDF2.toSDF2 (s : ArraySDF2) : SDF2 := ⟨s.Evaluate, s.BoundingBox⟩

/-- `RotateSDF2` from `sdf2.go`. -/
structure RotateSDF2 where
  sdf : SDF2
  num : ℤ
  step : M33
  min : MinFunc
  k : ℝ
  bb : Box2

/-- `NewRotateSDF2` from `sdf2.go`: `nil` (`none`) for non-positive `num`;
stores the inverted step matrix; the box accumulates the running min/max of
the child's box vertices over `num` applications of `step`. -/
def NewRotateSDF2 (sdf : SDF2) (num : ℤ) (step : M33) : Option RotateSDF2 :=
  if num ≤ 0 then none
  else
    let v := sdf.BoundingBox.Vertices
    let v0 := v.headD ⟨0, 0⟩
    let state := (List.range num.toNat).foldl
      (fun (acc : V2 × V2 × V2Set) _ =>
        (acc.1.Min (V2Set.Min acc.2.2), (acc.2.1.Max (V2Set.Max acc.2.2),
         step.MulVertices acc.2.2)))
      (v0, v0, v)
    some { sdf := sdf, num := num, step := step.Inverse, min := NormalMin,
           k := 0, bb := ⟨state.1, state.2.1⟩ }

/-- `RotateSDF2.Evaluate` from `sdf2.go`: min-fold over `num` rotated
copies, accumulating the rotation from the identity. -/
def RotateSDF2.Evaluate (s : RotateSDF2) (p : V2) : ℝ :=
  (((List.range s.num.toNat).foldl
    (fun (acc : ℝ × M33) _ =>
      (s.min acc.1 (s.sdf.Evaluate (acc.2.MulPosition p)) s.k, acc.2 * s.step))
    (maxFloat64, Identity2d))).1

/-- `RotateSDF2.BoundingBox` from `sdf2.go`. -/
def RotateSDF2.BoundingBox (s : RotateSDF2) : Box2 := s.bb

/-- Bundle as an SDF2 interface value. -/
def RotateSDF2.toSDF2 (s : RotateSDF2) : SDF2 := ⟨s.Evaluate, s.BoundingBox⟩

/-- `RotateCopySDF2` from `sdf2.go`. -/
structure RotateCopySDF2 where
  sdf : SDF2
  theta : ℝ
  bb : Box2

/-- `NewRotateCopySDF2` from `sdf2.go`: `nil` (`none`) for non-positive
`num`; otherwise `theta = TAU/num` and the box is the square of half-width
`r_max = |bb.Max|`, the length of the child box's Max corner only. -/
def NewRotateCopySDF2 (sdf : SDF2) (num : ℤ) : Option RotateCopySDF2 :=
  if num ≤ 0 then none
  else
    let r_max := sdf.BoundingBox.Max.Length
    some { sdf := sdf, theta := TAU / (num : ℝ),
           bb := ⟨⟨-r_max, -r_max⟩, ⟨r_max, r_max⟩⟩ }

/-- `RotateCopySDF2.Evaluate` from `sdf2.go`: map the query point into the
first copy sector by a sawtooth reduction of its polar angle, then
evaluate the child once there. -/
def RotateCopySDF2.Evaluate (s : RotateCopySDF2) (p : V2) : ℝ :=
  s.sdf.Evaluate (PolarToXY p.Length (SawTooth (Atan2 p.Y p.X) s.theta))

/-- `RotateCopySDF2.BoundingBox` from `sdf2.go`. -/
def RotateCopySDF2.BoundingBox (s : RotateCopySDF2) : Box2 := s.bb

/-- Bundle as an SDF2 interface value. -/
def RotateCopySDF2.toSDF2 (s : RotateCopySDF2) : SDF2 := ⟨s.Evaluate, s.BoundingBox⟩

/-- `UnionSDF2` from `sdf2.go`. -/
structure UnionSDF2 where
  s0 : SDF2
  s1 : SDF2
  min : MinFunc
  k : ℝ
  bb : Box2

/-- `UnionSDF2.Evaluate` from `sdf2.go`. -/
def UnionSDF2.Evaluate (s : UnionSDF2) (p : V2) : ℝ :=
  s.min (s.s0.Evaluate p) (s.s1.Evaluate p) s.k

/-- `UnionSDF2.BoundingBox` from `sdf2.go`. -/
def UnionSDF2.BoundingBox (s : UnionSDF2) : Box2 := s.bb

/-- Bundle as an SDF2 interface value. -/
def UnionSDF2.toSDF2 (s : UnionSDF2) : SDF2 := ⟨s.Evaluate, s.BoundingBox⟩

/-- `NewUnionSDF2` from `sdf2.go`: a `nil` argument short-circuits to the
other; otherwise the default min and extended box. -/
def NewUnionSDF2 : Option SDF2 → Option SDF2 → Option SDF2
  | none, s1 => s1
  | some s0, none => some s0
  | some s0, some s1 =>
      some (UnionSDF2.toSDF2
        { s0 := s0, s1 := s1, min := NormalMin, k := 0,
          bb := s0.BoundingBox.Extend s1.BoundingBox })

/-- `DifferenceSDF2` from `sdf2.go`. -/
structure DifferenceSDF2 where
  s0 : SDF2
  s1 : SDF2
  max : MaxFunc
  k : ℝ
  bb : Box2

/-- `DifferenceSDF2.Evaluate` from `sdf2.go`:
`max(s0.Evaluate(p), -s1.Evaluate(p))` through the stored max function. -/
def DifferenceSDF2.Evaluate (s : DifferenceSDF2) (p : V2) : ℝ :=
  s.max (s.s0.Evaluate p) (-(s.s1.Evaluate p)) s.k

/-- `DifferenceSDF2.BoundingBox` from `sdf2.go`. -/
def DifferenceSDF2.BoundingBox (s : DifferenceSDF2) : Box2 := s.bb

/-- Bundle as an SDF2 interface value. -/
def DifferenceSDF2.toSDF2 (s : DifferenceSDF2) : SDF2 := ⟨s.Evaluate, s.BoundingBox⟩

/-- `NewDifferenceSDF2` from `sdf2.go` (`s0 - s1`): `nil` subtrahend yields
`s0`, `nil` minuend yields `nil`; otherwise the default max and the
minuend's box. -/
def NewDifferenceSDF2 : Option SDF2 → Option SDF2 → Option SDF2
  | s0, none => s0
  | none, some _ => none
  | some s0, some s1 =>
      some (DifferenceSDF2.toSDF2
        { s0 := s0, s1 := s1, max := NormalMax, k := 0, bb := s0.BoundingBox })

/-- `SorSDF3` from the 3D SDF source file: solid of revolution of a 2D
profile, with `theta` for partial revolutions and the precomputed normal
to the theta line. -/
structure SorSDF3 where
  sdf : SDF2
  theta : ℝ
  norm : V2
  bb : Box3

/-- `NewSorThetaSDF3` from the 3D SDF source file: normalizes `theta` by
`math.Mod(Abs(theta), TAU)`, precomputes the normal `(-sin θ, cos θ)` to
the theta line, and derives the box from the wedge's extreme unit
directions scaled by the profile's extreme X extent. -/
def NewSorThetaSDF3 (sdf : SDF2) (theta : ℝ) : SorSDF3 :=
  let theta' := goMod |theta| TAU
  let sin := Real.sin theta'
  let cos := Real.cos theta'
  let vset : V2Set :=
    if theta' = 0 then [⟨1, 1⟩, ⟨-1, -1⟩]
    else
      ([⟨0, 0⟩, ⟨1, 0⟩, ⟨cos, sin⟩] ++
        (if 0.5 * PI < theta' then [⟨0, 1⟩] else []) ++
        (if PI < theta' then [⟨-1, 0⟩] else []) ++
        (if 1.5 * PI < theta' then [⟨0, -1⟩] else []))
  let bb := sdf.BoundingBox
  let l := max |bb.Min.X| |bb.Max.X|
  let vmin := (V2Set.Min vset).MulScalar l
  let vmax := (V2Set.Max vset).MulScalar l
  { sdf := sdf, theta := theta', norm := ⟨-sin, cos⟩,
    bb := ⟨⟨vmin.X, vmin.Y, bb.Min.Y⟩, ⟨vmax.X, vmax.Y, bb.Max.Y⟩⟩ }

/-- `NewSorSDF3` from the 3D SDF source file: a full revolution. -/
def NewSorSDF3 (sdf : SDF2) : SorSDF3 := NewSorThetaSDF3 sdf 0

/-- `SorSDF3.Evaluate` from the 3D SDF source file: project to
`(√(x²+y²), z)`, evaluate the profile, and for nonzero theta intersect
with the wedge of two vertical half-planes (intersection for `theta < π`,
union for `theta ≥ π`). -/
def SorSDF3.Evaluate (s : SorSDF3) (p : V3) : ℝ :=
  let x := Real.sqrt (p.X * p.X + p.Y * p.Y)
  let a := s.sdf.Evaluate ⟨x, p.Z⟩
  let b :=
    if s.theta ≠ 0 then
      let d := s.norm.Dot ⟨p.X, p.Y⟩
      if s.theta < PI then max (-p.Y) d else min (-p.Y) d
    else a
  max a b

/-- `SorSDF3.BoundingBox` from the 3D SDF source file. -/
def SorSDF3.BoundingBox (s : SorSDF3) : Box3 := s.bb

/-- Bundle as an SDF3 interface value. -/
def SorSDF3.toSDF3 (s : SorSDF3) : SDF3 := ⟨s.Evaluate, s.BoundingBox⟩

/-- `ExtrudeSDF3` from the 3D SDF source file. -/
structure ExtrudeSDF3 where
  sdf : SDF2
  height : ℝ
  bb : Box3

/-- `NewExtrudeSDF3` from the 3D SDF source file: lifts the profile's box
by the Z range `[0, height]`. -/
def NewExtrudeSDF3 (sdf : SDF2) (height : ℝ) : ExtrudeSDF3 :=
  let bb := sdf.BoundingBox
  { sdf := sdf, height := height,
    bb := ⟨⟨bb.Min.X, bb.Min.Y, 0⟩, ⟨bb.Max.X, bb.Max.Y, height⟩⟩ }

/-- `ExtrudeSDF3.Evaluate` from the 3D SDF source file: the intersection of
the profile's prism with the slab `z ∈ [0, height]`. -/
def ExtrudeSDF3.Evaluate (s : ExtrudeSDF3) (p : V3) : ℝ :=
  let a := s.sdf.Evaluate ⟨p.X, p.Y⟩
  let b := max (-p.Z) (p.Z - s.height)
  max a b

/-- `ExtrudeSDF3.BoundingBox` from the 3D SDF source file. -/
def ExtrudeSDF3.BoundingBox (s : ExtrudeSDF3) : Box3 := s.bb

/-- Bundle as an SDF3 interface value. -/
def ExtrudeSDF3.toSDF3 (s : ExtrudeSDF3) : SDF3 := ⟨s.Evaluate, s.BoundingBox⟩

/-- `BoxSDF3` from the 3D SDF source file. -/
structure BoxSDF3 where
  size : V3
  round : ℝ
  bb : Box3

/-- `NewBoxSDF3` from the 3D SDF source file. -/
def NewBoxSDF3 (size : V3) (round : ℝ) : BoxSDF3 :=
  let size' := size.MulScalar 0.5
  { size := size'.SubScalar round, round := round, bb := ⟨size'.Negate, size'⟩ }

/-- `BoxSDF3.Evaluate` from the 3D SDF source file. -/
def BoxSDF3.Evaluate (s : BoxSDF3) (p : V3) : ℝ := sdf_box3d p s.size - s.round

/-- `BoxSDF3.BoundingBox` from the 3D SDF source file. -/
def BoxSDF3.BoundingBox (s : BoxSDF3) : Box3 := s.bb

/-- Bundle as an SDF3 interface value. -/
def BoxSDF3.toSDF3 (s : BoxSDF3) : SDF3 := ⟨s.Evaluate, s.BoundingBox⟩

/-- `SphereSDF3` from the 3D SDF source file. -/
structure SphereSDF3 where
  radius : ℝ
  bb : Box3

/-- `NewSphereSDF3` from the 3D SDF source file. -/
def NewSphereSDF3 (radius : ℝ) : SphereSDF3 :=
  let d : V3 := ⟨radius, radius, radius⟩
  { radius := radius, bb := ⟨d.Negate, d⟩ }

/-- `SphereSDF3.Evaluate` from the 3D SDF source file. -/
def SphereSDF3.Evaluate (s : SphereSDF3) (p : V3) : ℝ := p.Length - s.radius

/-- `SphereSDF3.BoundingBox` from the 3D SDF source file. -/
def SphereSDF3.BoundingBox (s : SphereSDF3) : Box3 := s.bb

/-- Bundle as an SDF3 interface value. -/
def SphereSDF3.toSDF3 (s : SphereSDF3) : SDF3 := ⟨s.Evaluate, s.BoundingBox⟩

/-- `CylinderSDF3` from the 3D SDF source file. -/
structure CylinderSDF3 where
  height : ℝ
  radius : ℝ
  round : ℝ
  bb : Box3

/-- `NewCylinderSDF3` from the 3D SDF source file, parameter order
`(height, radius, round)`: stores `height/2 - round`, `radius - round`,
and the box of half-extents `(radius, radius, height/2)`. -/
def NewCylinderSDF3 (height radius round : ℝ) : CylinderSDF3 :=
  let d : V3 := ⟨radius, radius, height / 2⟩
  { height := height / 2 - round, radius := radius - round, round := round,
    bb := ⟨d.Negate, d⟩ }

/-- `NewCapsuleSDF3` from the 3D SDF source file: delegates to
`NewCylinderSDF3(radius, height, radius)`. -/
def NewCapsuleSDF3 (radius height : ℝ) : CylinderSDF3 :=
  NewCylinderSDF3 radius height radius

/-- `CylinderSDF3.Evaluate` from the 3D SDF source file. -/
def CylinderSDF3.Evaluate (s : CylinderSDF3) (p : V3) : ℝ :=
  let d := sdf_box2d ⟨(V2.mk p.X p.Y).Length, p.Z⟩ ⟨s.radius, s.height⟩
  d - s.round

/-- `CylinderSDF3.BoundingBox` from the 3D SDF source file. -/
def CylinderSDF3.BoundingBox (s : CylinderSDF3) : Box3 := s.bb

/-- Bundle as an SDF3 interface value. -/
def CylinderSDF3.toSDF3 (s : CylinderSDF3) : SDF3 := ⟨s.Evaluate, s.BoundingBox⟩

/-- `TransformSDF3` from the 3D SDF source file. -/
structure TransformSDF3 where
  sdf : SDF3
  matrix : M44
  inverse : M44
  bb : Box3

/-- `NewTransformSDF3` from the 3D SDF source file. -/
def NewTransformSDF3 (sdf : SDF3) (matrix : M44) : TransformSDF3 :=
  { sdf := sdf, matrix := matrix, inverse := matrix.Inverse,
    bb := matrix.MulBox sdf.BoundingBox }

/-- `TransformSDF3.Evaluate` from the 3D SDF source file. -/
def TransformSDF3.Evaluate (s : TransformSDF3) (p : V3) : ℝ :=
  s.sdf.Evaluate (s.inverse.MulPosition p)

/-- `TransformSDF3.BoundingBox` from the 3D SDF source file. -/
def TransformSDF3.BoundingBox (s : TransformSDF3) : Box3 := s.bb

/-- Bundle as an SDF3 interface value. -/
def TransformSDF3.toSDF3 (s : TransformSDF3) : SDF3 := ⟨s.Evaluate, s.BoundingBox⟩

/-- `UnionSDF3` from the 3D SDF source file. -/
structure UnionSDF3 where
  s0 : SDF3
  s1 : SDF3
  min : MinFunc
  k : ℝ
  bb : Box3

/-- `NewUnionSDF3` from the 3D SDF source file (no nil checks in the
source): default min, extended box. -/
def NewUnionSDF3 (s0 s1 : SDF3) : UnionSDF3 :=
  { s0 := s0, s1 := s1, min := NormalMin, k := 0,
    bb := s0.BoundingBox.Extend s1.BoundingBox }

/-- `UnionSDF3.Evaluate` from the 3D SDF source file. -/
def UnionSDF3.Evaluate (s : UnionSDF3) (p : V3) : ℝ :=
  s.min (s.s0.Evaluate p) (s.s1.Evaluate p) s.k

/-- `UnionSDF3.BoundingBox` from the 3D SDF source file. -/
def UnionSDF3.BoundingBox (s : UnionSDF3) : Box3 := s.bb

/-- Bundle as an SDF3 interface value. -/
def UnionSDF3.toSDF3 (s : UnionSDF3) : SDF3 := ⟨s.Evaluate, s.BoundingBox⟩

/-- `DifferenceSDF3` from the 3D SDF source file. -/
structure DifferenceSDF3 where
  s0 : SDF3
  s1 : SDF3
  max : MaxFunc
  k : ℝ
  bb : Box3

/-- `NewDifferenceSDF3` from the 3D SDF source file (`s0 - s1`, no nil
checks in the source): default max, minuend's box. -/
def NewDifferenceSDF3 (s0 s1 : SDF3) : DifferenceSDF3 :=
  { s0 := s0, s1 := s1, max := NormalMax, k := 0, bb := s0.BoundingBox }

/-- `DifferenceSDF3.Evaluate` from the 3D SDF source file. -/
def DifferenceSDF3.Evaluate (s : DifferenceSDF3) (p : V3) : ℝ :=
  s.max (s.s0.Evaluate p) (-(s.s1.Evaluate p)) s.k

/-- `DifferenceSDF3.BoundingBox` from the 3D SDF source file. -/
def DifferenceSDF3.BoundingBox (s : DifferenceSDF3) : Box3 := s.bb

/-- Bundle as an SDF3 interface value. -/
def DifferenceSDF3.toSDF3 (s : DifferenceSDF3) : SDF3 := ⟨s.Evaluate, s.BoundingBox⟩

/-- `ArraySDF3` from the 3D SDF source file. -/
structure ArraySDF3 where
  sdf : SDF3
  num : V3i
  step : V3
  min : MinFunc
  k : ℝ
  bb : Box3

/-- `NewArraySDF3` from the 3D SDF source file: `nil` (`none`) when any
count is non-positive. -/
def NewArraySDF3 (sdf : SDF3) (num : V3i) (step : V3) : Option ArraySDF3 :=
  if num.1 ≤ 0 ∨ num.2.1 ≤ 0 ∨ num.2.2 ≤ 0 then none
  else
    let bb0 := sdf.BoundingBox
    let bb1 := bb0.Translate (step.Mul
      ⟨((num.1 - 1 : ℤ) : ℝ), ((num.2.1 - 1 : ℤ) : ℝ), ((num.2.2 - 1 : ℤ) : ℝ)⟩)
    some { sdf := sdf, num := num, step := step, min := NormalMin, k := 0,
           bb := bb0.Extend bb1 }

/-- `ArraySDF3.Evaluate` from the 3D SDF source file: triple min-fold over
the grid of translated copies, starting from `math.MaxFloat64`. -/
def ArraySDF3.Evaluate (s : ArraySDF3) (p : V3) : ℝ :=
  (List.range s.num.1.toNat).foldl
    (fun d j =>
      (List.range s.num.2.1.toNat).foldl
        (fun d' k' =>
          (List.range s.num.2.2.toNat).foldl
            (fun d'' l =>
              let x := p.Sub ⟨(j : ℝ) * s.step.X, (k' : ℝ) * s.step.Y,
                              (l : ℝ) * s.step.Z⟩
              s.min d'' (s.sdf.Evaluate x) s.k)
            d')
        d)
    maxFloat64

/-- `ArraySDF3.BoundingBox` from the 3D SDF source file. -/
def ArraySDF3.BoundingBox (s : ArraySDF3) : Box3 := s.bb

/-- Bundle as an SDF3 interface value. -/
def ArraySDF3.toSDF3 (s : ArraySDF3) : SDF3 := ⟨s.Evaluate, s.BoundingBox⟩

/-- `RotateSDF3` from the 3D SDF source file. -/
structure RotateSDF3 where
  sdf : SDF3
  num : ℤ
  step : M44
  min : MinFunc
  k : ℝ
  bb : Box3

/-- `NewRotateSDF3` from the 3D SDF source file: `nil` (`none`) for
non-positive `num`; stores the inverted step matrix; the box accumulates
the running min/max of the child's box vertices over `num` applications of
`step`. -/
def NewRotateSDF3 (sdf : SDF3) (num : ℤ) (step : M44) : Option RotateSDF3 :=
  if num ≤ 0 then none
  else
    let v := sdf.BoundingBox.Vertices
    let v0 := v.headD ⟨0, 0, 0⟩
    let state := (List.range num.toNat).foldl
      (fun (acc : V3 × V3 × List V3) _ =>
        (acc.1.Min (V3SetMin acc.2.2), (acc.2.1.Max (V3SetMax acc.2.2),
         step.MulVertices acc.2.2)))
      (v0, v0, v)
    some { sdf := sdf, num := num, step := step.Inverse, min := NormalMin,
           k := 0, bb := ⟨state.1, state.2.1⟩ }

/-- `RotateSDF3.Evaluate` from the 3D SDF source file. -/
def RotateSDF3.Evaluate (s : RotateSDF3) (p : V3) : ℝ :=
  (((List.range s.num.toNat).foldl
    (fun (acc : ℝ × M44) _ =>
      (s.min acc.1 (s.sdf.Evaluate (acc.2.MulPosition p)) s.k, acc.2 * s.step))
    (maxFloat64, Identity3d))).1

/-- `RotateSDF3.BoundingBox` from the 3D SDF source file. -/
def RotateSDF3.BoundingBox (s : RotateSDF3) : Box3 := s.bb

/-- Bundle as an SDF3 interface value. -/
def RotateSDF3.toSDF3 (s : RotateSDF3) : SDF3 := ⟨s.Evaluate, s.BoundingBox⟩

/-- Modelled from the spec: `Triangle3`, a triangle of three 3D points,
the element of the mesh handed to `Save3MF`. -/
structure Triangle3 where
  V : Fin 3 → V3

/-- The vertex occurrences of a mesh, in the order the `Save3MF` dedupe
loop visits them (`for _, t := range mesh { for _, v := range t.V }`). -/
def meshVerts (mesh : List Triangle3) : List V3 :=
  mesh.flatMap fun t => [t.V 0, t.V 1, t.V 2]

/-- One step of the `Save3MF` dedupe loop, `vertices[v] = len(vertices)`
on a Go map modelled as a key-unique association list: an existing key is
re-assigned the current map size, a new key is appended with the current
map size as its index. -/
def goMapSet (m : List (V3 × ℕ)) (v : V3) : List (V3 × ℕ) :=
  if v ∈ m.map Prod.fst then
    m.map (fun kv => if kv.1 = v then (kv.1, m.length) else kv)
  else m ++ [(v, m.length)]

/-- The `vertices` map built by `Save3MF`'s dedupe loop. -/
def save3MFVertexMap (mesh : List Triangle3) : List (V3 × ℕ) :=
  (meshVerts mesh).foldl goMapSet []

/-- `Save3MF`'s vertex indexing stays within bounds: every index stored in
the `vertices` map is a valid index of `outputVertices`, whose length is
`len(vertices)`. -/
def save3MFIndexSafe (mesh : List Triangle3) : Prop :=
  ∀ kv ∈ save3MFVertexMap mesh, kv.2 < (save3MFVertexMap mesh).length

/-- Spec-side formula for solid-of-revolution evaluation, written from the
claim's words: project `(x,y,z)` to `(√(x²+y²), z)` and evaluate the 2D
profile there; when the normalized theta is nonzero the result is the max
of that profile distance with a wedge term, the wedge term being
`max(-y, d)` when `theta < π` and `min(-y, d)` when `theta ≥ π`, with `d`
the dot of `(x,y)` with the precomputed normal. -/
def sorEvalSpec (s : SorSDF3) (p : V3) : ℝ :=
  let profile := s.sdf.Evaluate ⟨Real.sqrt (p.X * p.X + p.Y * p.Y), p.Z⟩
  if s.theta = 0 then profile
  else
    let d := V2.Dot ⟨p.X, p.Y⟩ s.norm
    let wedge := if s.theta < PI then max (-p.Y) d else min (-p.Y) d
    max profile wedge

/-- C2: a freshly constructed (default, unblended) union evaluates to the
pointwise minimum of its two children's distances, and union is pointwise
commutative; this holds for both `UnionSDF2` and `UnionSDF3`. -/
theorem C2_union_is_min_and_commutative :
    (∀ (A B : SDF2) (p : V2),
      evalOpt2 (NewUnionSDF2 (some A) (some B)) p =
        some (min (A.Evaluate p) (B.Evaluate p))) ∧
    (∀ (A B : SDF2) (p : V2),
      evalOpt2 (NewUnionSDF2 (some A) (some B)) p =
        evalOpt2 (NewUnionSDF2 (some B) (some A)) p) ∧
    (∀ (A B : SDF3) (p : V3),
      (NewUnionSDF3 A B).Evaluate p = min (A.Evaluate p) (B.Evaluate p)) ∧
    (∀ (A B : SDF3) (p : V3),
      (NewUnionSDF3 A B).Evaluate p = (NewUnionSDF3 B A).Evaluate p) := by
  refine ⟨fun A B p => rfl, fun A B p => ?_, fun A B p => rfl, fun A B p => ?_⟩
  · simp only [evalOpt2, NewUnionSDF2, UnionSDF2.toSDF2, UnionSDF2.Evaluate,
      NormalMin, Option.map_some]
    exact congrArg some (min_comm _ _)
  · simp only [NewUnionSDF3, UnionSDF3.Evaluate, NormalMin]
    exact min_comm _ _

/-- C3: a freshly constructed (default) difference evaluates to
`max(A.Evaluate(p), -B.Evaluate(p))`, and difference is not commutative
(witnessed by two circles/spheres of radii 2 and 1 at the origin); this
holds for both `DifferenceSDF2` and `DifferenceSDF3`. -/
theorem C3_difference_is_max_and_not_commutative :
    (∀ (A B : SDF2) (p : V2),
      evalOpt2 (NewDifferenceSDF2 (some A) (some B)) p =
        some (max (A.Evaluate p) (-(B.Evaluate p)))) ∧
    (∃ (A B : SDF2) (p : V2),
      evalOpt2 (NewDifferenceSDF2 (some A) (some B)) p ≠
        evalOpt2 (NewDifferenceSDF2 (some B) (some A)) p) ∧
    (∀ (A B : SDF3) (p : V3),
      (NewDifferenceSDF3 A B).Evaluate p =
        max (A.Evaluate p) (-(B.Evaluate p))) ∧
    (∃ (A B : SDF3) (p : V3),
      (NewDifferenceSDF3 A B).Evaluate p ≠
        (NewDifferenceSDF3 B A).Evaluate p) := by
  refine ⟨fun A B p => rfl,
    ⟨(Circle2D 2).toSDF2, (Circle2D 1).toSDF2, ⟨0, 0⟩, ?_⟩,
    fun A B p => rfl,
    ⟨(NewSphereSDF3 2).toSDF3, (NewSphereSDF3 1).toSDF3, ⟨0, 0, 0⟩, ?_⟩⟩
  · simp [evalOpt2, NewDifferenceSDF2, DifferenceSDF2.toSDF2,
      DifferenceSDF2.Evaluate, NormalMax, CircleSDF2.toSDF2, Circle2D,
      CircleSDF2.Evaluate, V2.Length, V2.Length2]
    norm_num [max_def]
  · simp [NewDifferenceSDF3, DifferenceSDF3.Evaluate, NormalMax,
      SphereSDF3.toSDF3, NewSphereSDF3, SphereSDF3.Evaluate, V3.Length,
      V3.Length2]
    norm_num [max_def]

/-- C5: solid-of-revolution evaluation matches the claim's formula, and the
constructor stores the normalized theta `Mod(|theta|, TAU)` together with
the normal `(-sin θ, cos θ)` to the theta line. -/
theorem C5_sor_evaluate_matches_spec :
    (∀ (s : SorSDF3) (p : V3), s.Evaluate p = sorEvalSpec s p) ∧
    (∀ (sdf : SDF2) (theta : ℝ),
      (NewSorThetaSDF3 sdf theta).theta = goMod |theta| TAU ∧
      (NewSorThetaSDF3 sdf theta).norm =
        ⟨-Real.sin (goMod |theta| TAU), Real.cos (goMod |theta| TAU)⟩) := by
  refine ⟨fun s p => ?_, fun sdf theta => ⟨rfl, rfl⟩⟩
  by_cases h0 : s.theta = 0
  · simp [SorSDF3.Evaluate, sorEvalSpec, h0]
  · by_cases hpi : s.theta < PI
    · simp only [SorSDF3.Evaluate, sorEvalSpec, h0, hpi, if_true, if_false,
        ne_eq, not_false_iff, ite_true, ite_false, V2.Dot]
      ring_nf
    · simp only [SorSDF3.Evaluate, sorEvalSpec, h0, hpi, if_true, if_false,
        ne_eq, not_false_iff, ite_true, ite_false, V2.Dot]
      ring_nf

/-- C6: extrusion evaluates to
`max(profile.Evaluate(x,y), max(-z, z-height))`; extruding the radius-1
circle to height 2 gives `-1` at `(0,0,1)` and a positive value at
`(0,0,3)`. -/
theorem C6_extrude_evaluate :
    (∀ (S : SDF2) (height : ℝ) (p : V3),
      (NewExtrudeSDF3 S height).Evaluate p =
        max (S.Evaluate ⟨p.X, p.Y⟩) (max (-p.Z) (p.Z - height))) ∧
    (NewExtrudeSDF3 (Circle2D 1).toSDF2 2).Evaluate ⟨0, 0, 1⟩ = -1 ∧
    0 < (NewExtrudeSDF3 (Circle2D 1).toSDF2 2).Evaluate ⟨0, 0, 3⟩ := by
  refine ⟨fun S height p => rfl, ?_, ?_⟩
  · simp [NewExtrudeSDF3, ExtrudeSDF3.Evaluate, CircleSDF2.toSDF2,
      Circle2D, CircleSDF2.Evaluate, V2.Length, V2.Length2]
    norm_num [max_def]
  · simp [NewExtrudeSDF3, ExtrudeSDF3.Evaluate, CircleSDF2.toSDF2,
      Circle2D, CircleSDF2.Evaluate, V2.Length, V2.Length2]
    norm_num [max_def]

/-- C9: `NewCapsuleSDF3(radius, height)` returns exactly
`NewCylinderSDF3(radius, height, radius)` — the cylinder's `height`
parameter receives the capsule's radius and its `radius` parameter the
capsule's height, with rounding `radius` — so its bounding box is
`[(-height,-height,-radius/2), (height,height,radius/2)]` and its
evaluation is that of the so-parameterized rounded cylinder. -/
theorem C9_capsule_is_swapped_cylinder :
    (∀ radius height : ℝ,
      NewCapsuleSDF3 radius height = NewCylinderSDF3 radius height radius) ∧
    (∀ radius height : ℝ,
      (NewCapsuleSDF3 radius height).BoundingBox =
        ⟨⟨-height, -height, -(radius / 2)⟩, ⟨height, height, radius / 2⟩⟩) ∧
    (∀ (radius height : ℝ) (p : V3),
      (NewCapsuleSDF3 radius height).Evaluate p =
        sdf_box2d ⟨(V2.mk p.X p.Y).Length, p.Z⟩
          ⟨height - radius, radius / 2 - radius⟩ - radius) := by
  exact ⟨fun radius height => rfl, fun radius height => rfl,
    fun radius height p => rfl⟩

/-- C7: construction failures surface as an absent (`nil`) node:
`NewPolySDF2` is `nil` exactly for fewer than 3 vertices,
`NewArraySDF2`/`NewArraySDF3` exactly when some count component is ≤ 0,
and `NewRotateSDF2`/`NewRotateSDF3`/`NewRotateCopySDF2` exactly when
`num ≤ 0`; in every other case a non-nil node is returned. -/
theorem C7_constructors_nil_iff_invalid :
    (∀ vertex : List V2, NewPolySDF2 vertex = none ↔ vertex.length < 3) ∧
    (∀ (sdf : SDF2) (num : V2i) (step : V2),
      NewArraySDF2 sdf num step = none ↔ (num.1 ≤ 0 ∨ num.2 ≤ 0)) ∧
    (∀ (sdf : SDF3) (num : V3i) (step : V3),
      NewArraySDF3 sdf num step = none ↔
        (num.1 ≤ 0 ∨ num.2.1 ≤ 0 ∨ num.2.2 ≤ 0)) ∧
    (∀ (sdf : SDF2) (num : ℤ) (step : M33),
      NewRotateSDF2 sdf num step = none ↔ num ≤ 0) ∧
    (∀ (sdf : SDF3) (num : ℤ) (step : M44),
      NewRotateSDF3 sdf num step = none ↔ num ≤ 0) ∧
    (∀ (sdf : SDF2) (num : ℤ), NewRotateCopySDF2 sdf num = none ↔ num ≤ 0) := by
  refine ⟨fun vertex => ?_, fun sdf num step => ?_, fun sdf num step => ?_,
    fun sdf num step => ?_, fun sdf num step => ?_, fun sdf num => ?_⟩
  · by_cases h : vertex.length < 3 <;> simp [NewPolySDF2, h]
  · by_cases h : num.1 ≤ 0 ∨ num.2 ≤ 0 <;> simp [NewArraySDF2, h]
  · by_cases h : num.1 ≤ 0 ∨ num.2.1 ≤ 0 ∨ num.2.2 ≤ 0 <;>
      simp [NewArraySDF3, h]
  · by_cases h : num ≤ 0 <;> simp [NewRotateSDF2, h]
  · by_cases h : num ≤ 0 <;> simp [NewRotateSDF3, h]
  · by_cases h : num ≤ 0 <;> simp [NewRotateCopySDF2, h]

/-- C8: an array with all counts equal to 1 is pointwise identical to its
base shape (for the default min function, whenever the base distance does
not exceed `math.MaxFloat64`), for both `NewArraySDF2` and
`NewArraySDF3`. -/
theorem C8_array_count_one_identity :
    (∀ (S : SDF2) (step p : V2), S.Evaluate p ≤ maxFloat64 →
      (NewArraySDF2 S (1, 1) step).map (fun a => a.Evaluate p) =
        some (S.Evaluate p)) ∧
    (∀ (S : SDF3) (step p : V3), S.Evaluate p ≤ maxFloat64 →
      (NewArraySDF3 S (1, 1, 1) step).map (fun a => a.Evaluate p) =
        some (S.Evaluate p)) := by
  have hr : List.range 1 = [0] := rfl
  constructor
  · intro S step p h
    simp [NewArraySDF2, ArraySDF2.Evaluate, NormalMin, V2.Sub, hr,
      min_eq_right h]
  · intro S step p h
    simp [NewArraySDF3, ArraySDF3.Evaluate, NormalMin, V3.Sub, hr,
      min_eq_right h]

/-- C8 witness: the count-one array identity applied to the default shape
at the origin with step `(1,1)`, the finiteness hypothesis discharged
concretely. -/
theorem C8_array_count_one_identity_witness :
    (defaultSDF2.Evaluate ⟨0, 0⟩ ≤ maxFloat64 ∧
      (NewArraySDF2 defaultSDF2 (1, 1) ⟨1, 1⟩).map
        (fun a => a.Evaluate ⟨0, 0⟩) = some (defaultSDF2.Evaluate ⟨0, 0⟩)) ∧
    (defaultSDF3.Evaluate ⟨0, 0, 0⟩ ≤ maxFloat64 ∧
      (NewArraySDF3 defaultSDF3 (1, 1, 1) ⟨1, 1, 1⟩).map
        (fun a => a.Evaluate ⟨0, 0, 0⟩) = some (defaultSDF3.Evaluate ⟨0, 0, 0⟩)) := by
  have h2 : defaultSDF2.Evaluate ⟨0, 0⟩ ≤ maxFloat64 := by
    norm_num [defaultSDF2, maxFloat64]
  have h3 : defaultSDF3.Evaluate ⟨0, 0, 0⟩ ≤ maxFloat64 := by
    norm_num [defaultSDF3, maxFloat64]
  exact ⟨⟨h2, C8_array_count_one_identity.1 defaultSDF2 ⟨1, 1⟩ ⟨0, 0⟩ h2⟩,
    ⟨h3, C8_array_count_one_identity.2 defaultSDF3 ⟨1, 1, 1⟩ ⟨0, 0, 0⟩ h3⟩⟩

/-- For an invertible matrix whose bottom row is `(0, 0, 1)` (a
homogeneous 2D affine transform), applying the precomputed inverse to a
transformed point recovers the point. -/
theorem M33.mulPosition_inverse_cancel2 (M : M33) (p : V2)
    (h0 : M 2 0 = 0) (h1 : M 2 1 = 0) (h2 : M 2 2 = 1)
    (hdet : IsUnit M.det) :
    (M.Inverse).MulPosition (M.MulPosition p) = p := by
  have hv : ![M.mulVec ![p.X, p.Y, 1] 0, M.mulVec ![p.X, p.Y, 1] 1, (1 : ℝ)] =
      M.mulVec ![p.X, p.Y, 1] := by
    funext i
    fin_cases i
    · rfl
    · rfl
    · show (1 : ℝ) = M.mulVec ![p.X, p.Y, 1] 2
      simp [Matrix.mulVec, Matrix.dotProduct, Fin.sum_univ_three, h0, h1, h2,
        Matrix.vecHead, Matrix.vecTail]
  show V2.mk (M⁻¹.mulVec ![M.mulVec ![p.X, p.Y, 1] 0,
      M.mulVec ![p.X, p.Y, 1] 1, 1] 0)
    (M⁻¹.mulVec ![M.mulVec ![p.X, p.Y, 1] 0,
      M.mulVec ![p.X, p.Y, 1] 1, 1] 1) = p
  rw [hv, Matrix.mulVec_mulVec, Matrix.nonsing_inv_mul M hdet,
    Matrix.one_mulVec]
  rfl

/-- For an invertible matrix whose bottom row is `(0, 0, 0, 1)` (a
homogeneous 3D affine transform), applying the precomputed inverse to a
transformed point recovers the point. -/
theorem M44.mulPosition_inverse_cancel3 (M : M44) (p : V3)
    (h0 : M 3 0 = 0) (h1 : M 3 1 = 0) (h2 : M 3 2 = 0) (h3 : M 3 3 = 1)
    (hdet : IsUnit M.det) :
    (M.Inverse).MulPosition (M.MulPosition p) = p := by
  have hv : ![M.mulVec ![p.X, p.Y, p.Z, 1] 0, M.mulVec ![p.X, p.Y, p.Z, 1] 1,
      M.mulVec ![p.X, p.Y, p.Z, 1] 2, (1 : ℝ)] =
      M.mulVec ![p.X, p.Y, p.Z, 1] := by
    funext i
    fin_cases i
    · rfl
    · rfl
    · rfl
    · show (1 : ℝ) = M.mulVec ![p.X, p.Y, p.Z, 1] 3
      simp [Matrix.mulVec, Matrix.dotProduct, Fin.sum_univ_four, h0, h1, h2, h3,
        Matrix.vecHead, Matrix.vecTail]
  show V3.mk (M⁻¹.mulVec ![M.mulVec ![p.X, p.Y, p.Z, 1] 0,
      M.mulVec ![p.X, p.Y, p.Z, 1] 1, M.mulVec ![p.X, p.Y, p.Z, 1] 2, 1] 0)
    (M⁻¹.mulVec ![M.mulVec ![p.X, p.Y, p.Z, 1] 0,
      M.mulVec ![p.X, p.Y, p.Z, 1] 1, M.mulVec ![p.X, p.Y, p.Z, 1] 2, 1] 1)
    (M⁻¹.mulVec ![M.mulVec ![p.X, p.Y, p.Z, 1] 0,
      M.mulVec ![p.X, p.Y, p.Z, 1] 1, M.mulVec ![p.X, p.Y, p.Z, 1] 2, 1] 2) = p
  rw [hv, Matrix.mulVec_mulVec, Matrix.nonsing_inv_mul M hdet,
    Matrix.one_mulVec]
  rfl

/-- C4: transform round-trip — for every shape, every invertible
(homogeneous affine) matrix and every point,
`Transform(S, M).Evaluate(M·p) = S.Evaluate(p)`: the transform node
evaluates its child at the precomputed inverse applied to the query
point.  Holds for `TransformSDF2` and `TransformSDF3`. -/
theorem C4_transform_round_trip :
    (∀ (S : SDF2) (M : M33) (p : V2),
      M 2 0 = 0 → M 2 1 = 0 → M 2 2 = 1 → IsUnit M.det →
      (NewTransformSDF2 S M).Evaluate (M.MulPosition p) = S.Evaluate p) ∧
    (∀ (S : SDF3) (M : M44) (p : V3),
      M 3 0 = 0 → M 3 1 = 0 → M 3 2 = 0 → M 3 3 = 1 → IsUnit M.det →
      (NewTransformSDF3 S M).Evaluate (M.MulPosition p) = S.Evaluate p) := by
  constructor
  · intro S M p h0 h1 h2 hdet
    show S.Evaluate ((M.Inverse).MulPosition (M.MulPosition p)) = S.Evaluate p
    rw [M33.mulPosition_inverse_cancel2 M p h0 h1 h2 hdet]
  · intro S M p h0 h1 h2 h3 hdet
    show S.Evaluate ((M.Inverse).MulPosition (M.MulPosition p)) = S.Evaluate p
    rw [M44.mulPosition_inverse_cancel3 M p h0 h1 h2 h3 hdet]

/-- C4 witness: the round-trip theorem applied at the identity transform,
the default shape and the origin, with every hypothesis discharged
concretely. -/
theorem C4_transform_round_trip_witness :
    ((1 : M33) 2 0 = 0 ∧ (1 : M33) 2 1 = 0 ∧ (1 : M33) 2 2 = 1 ∧
      IsUnit (1 : M33).det ∧
      (NewTransformSDF2 defaultSDF2 1).Evaluate
        ((1 : M33).MulPosition ⟨0, 0⟩) = defaultSDF2.Evaluate ⟨0, 0⟩) ∧
    ((1 : M44) 3 0 = 0 ∧ (1 : M44) 3 1 = 0 ∧ (1 : M44) 3 2 = 0 ∧
      (1 : M44) 3 3 = 1 ∧ IsUnit (1 : M44).det ∧
      (NewTransformSDF3 defaultSDF3 1).Evaluate
        ((1 : M44).MulPosition ⟨0, 0, 0⟩) = defaultSDF3.Evaluate ⟨0, 0, 0⟩) := by
  have g0 : (1 : M33) 2 0 = 0 := by simp [Matrix.one_apply]
  have g1 : (1 : M33) 2 1 = 0 := by simp [Matrix.one_apply]
  have g2 : (1 : M33) 2 2 = 1 := by simp [Matrix.one_apply]
  have gd : IsUnit (1 : M33).det := by simp
  have f0 : (1 : M44) 3 0 = 0 := by simp [Matrix.one_apply]
  have f1 : (1 : M44) 3 1 = 0 := by simp [Matrix.one_apply]
  have f2 : (1 : M44) 3 2 = 0 := by simp [Matrix.one_apply]
  have f3 : (1 : M44) 3 3 = 1 := by simp [Matrix.one_apply]
  have fd : IsUnit (1 : M44).det := by simp
  exact ⟨⟨g0, g1, g2, gd,
      C4_transform_round_trip.1 defaultSDF2 1 ⟨0, 0⟩ g0 g1 g2 gd⟩,
    ⟨f0, f1, f2, f3, fd,
      C4_transform_round_trip.2 defaultSDF3 1 ⟨0, 0, 0⟩ f0 f1 f2 f3 fd⟩⟩

/-- A base shape whose bounding box's Min corner is farther from the
origin than its Max corner: the single circle of radius 1 centred at
`(-5, 0)`, with box `[(-6,-1), (-4,1)]`. -/
def c1Base : SDF2 := (NewMultiCircleSDF2 1 [⟨-5, 0⟩]).toSDF2

/-- The rotate-copy node built from `c1Base` with one copy
(`theta = TAU`). -/
def c1Node : RotateCopySDF2 :=
  (NewRotateCopySDF2 c1Base 1).getD ⟨defaultSDF2, 0, ⟨⟨0, 0⟩, ⟨0, 0⟩⟩⟩

/-- C1, failing input: the bounding box of `RotateCopySDF2` is the square
of half-width `|bb.Max| = √17` only, yet the boundary point `(-6, 0)` of
the copied shape (where `Evaluate = 0 ≤ 0`) lies outside that square:
box soundness fails for `NewRotateCopySDF2 c1Base 1` at `(-6, 0)`. -/
theorem C1_rotate_copy_box_unsound :
    NewRotateCopySDF2 c1Base 1 = some c1Node ∧
    c1Node.Evaluate ⟨-6, 0⟩ ≤ 0 ∧
    ¬ c1Node.BoundingBox.Contains ⟨-6, 0⟩ := by
  have hif : ¬ ((1 : ℤ) ≤ 0) := by norm_num
  have hnode : c1Node = RotateCopySDF2.mk c1Base (TAU / ((1 : ℤ) : ℝ))
      (Box2.mk
        (V2.mk (-c1Base.BoundingBox.Max.Length) (-c1Base.BoundingBox.Max.Length))
        (V2.mk c1Base.BoundingBox.Max.Length c1Base.BoundingBox.Max.Length)) := by
    simp [c1Node, NewRotateCopySDF2, hif]
  have hmax : c1Base.BoundingBox.Max = ⟨-4, 1⟩ := by
    simp [c1Base, MultiCircleSDF2.toSDF2, NewMultiCircleSDF2,
      MultiCircleSDF2.BoundingBox, V2Set.Max, V2.Add]
    norm_num
  have hmaxlen : c1Base.BoundingBox.Max.Length = Real.sqrt 17 := by
    rw [hmax]
    simp [V2.Length, V2.Length2]
    norm_num
  have hL : V2.Length ⟨-6, 0⟩ = 6 := by
    simp [V2.Length, V2.Length2]
  have hA : Atan2 0 (-6) = PI := by
    simp [Atan2]
  have hTheta : TAU / ((1 : ℤ) : ℝ) = TAU := by norm_num
  have hhalf : PI / TAU = 1 / 2 := by
    unfold PI TAU
    rw [div_eq_iff (by positivity : (2 : ℝ) * Real.pi ≠ 0)]
    ring
  have hS : SawTooth PI (TAU / ((1 : ℤ) : ℝ)) = PI := by
    rw [hTheta]
    unfold SawTooth
    rw [hhalf, show ⌊(1 / 2 : ℝ)⌋ = 0 from by norm_num [Int.floor_eq_zero_iff]]
    simp
  have hP : PolarToXY 6 PI = ⟨-6, 0⟩ := by
    simp [PolarToXY, PI]
  have hBase : c1Base.Evaluate ⟨-6, 0⟩ = 0 := by
    simp [c1Base, MultiCircleSDF2.toSDF2, NewMultiCircleSDF2,
      MultiCircleSDF2.Evaluate, V2.Sub, V2.Length, V2.Length2]
    norm_num
    norm_num [maxFloat64]
  have hsqrt17 : Real.sqrt 17 < 6 := by
    rw [Real.sqrt_lt' (by norm_num : (0 : ℝ) < 6)]
    norm_num
  refine ⟨?_, ?_, ?_⟩
  · simp [c1Node, NewRotateCopySDF2, hif]
  · rw [hnode]
    show c1Base.Evaluate
      (PolarToXY (V2.Length ⟨-6, 0⟩)
        (SawTooth (Atan2 (0 : ℝ) (-6)) (TAU / ((1 : ℤ) : ℝ)))) ≤ 0
    rw [hL, hA, hS, hP, hBase]
  · rw [hnode]
    intro hcon
    have h1 : -c1Base.BoundingBox.Max.Length ≤ (-6 : ℝ) := hcon.1
    rw [hmaxlen] at h1
    linarith

/-- The association list assigning consecutive indices starting at `n` to
a list of vertices — the shape `Save3MF`'s dedupe map takes on inputs
without repeated vertices. -/
def idxFrom (n : ℕ) : List V3 → List (V3 × ℕ)
  | [] => []
  | a :: t => (a, n) :: idxFrom (n + 1) t

/-- The keys of `idxFrom` are the listed vertices. -/
theorem idxFrom_keys (n : ℕ) (l : List V3) :
    (idxFrom n l).map Prod.fst = l := by
  induction l generalizing n with
  | nil => rfl
  | cons a t ih => simp [idxFrom, ih]

/-- `idxFrom` has one entry per listed vertex. -/
theorem idxFrom_length (n : ℕ) (l : List V3) :
    (idxFrom n l).length = l.length := by
  induction l generalizing n with
  | nil => rfl
  | cons a t ih => simp [idxFrom, ih]

/-- Appending a vertex to `idxFrom` input appends the next index. -/
theorem idxFrom_append (n : ℕ) (l : List V3) (a : V3) :
    idxFrom n (l ++ [a]) = idxFrom n l ++ [(a, n + l.length)] := by
  induction l generalizing n with
  | nil => simp [idxFrom]
  | cons b t ih => simp [idxFrom, ih]; omega

/-- Every index stored by `idxFrom n l` is below `n + l.length`. -/
theorem idxFrom_snd_lt (n : ℕ) (l : List V3) :
    ∀ kv ∈ idxFrom n l, kv.2 < n + l.length := by
  induction l generalizing n with
  | nil => intro kv hkv; cases hkv
  | cons a t ih =>
    intro kv hkv
    rcases List.mem_cons.mp hkv with hkv | hkv
    · simp [hkv]
    · have := ih (n + 1) kv hkv
      simp only [List.length_cons]
      omega

/-- On a vertex stream without repetitions the `Save3MF` dedupe fold only
ever appends fresh keys, producing consecutive indices. -/
theorem foldl_goMapSet_nodup (l seen : List V3) (h : (seen ++ l).Nodup) :
    l.foldl goMapSet (idxFrom 0 seen) = idxFrom 0 (seen ++ l) := by
  induction l generalizing seen with
  | nil => simp
  | cons a t ih =>
    have ha : a ∉ seen := by
      intro hmem
      rcases List.nodup_append.mp h with ⟨h1, h2, hdisj⟩
      exact hdisj hmem (List.mem_cons_self a t)
    have hstep : goMapSet (idxFrom 0 seen) a = idxFrom 0 (seen ++ [a]) := by
      simp [goMapSet, idxFrom_keys, idxFrom_length, ha, idxFrom_append]
    have hnd : ((seen ++ [a]) ++ t).Nodup := by
      rw [List.append_assoc, List.singleton_append]
      exact h
    calc (a :: t).foldl goMapSet (idxFrom 0 seen)
        = t.foldl goMapSet (goMapSet (idxFrom 0 seen) a) := rfl
      _ = t.foldl goMapSet (idxFrom 0 (seen ++ [a])) := by rw [hstep]
      _ = idxFrom 0 ((seen ++ [a]) ++ t) := ih (seen ++ [a]) hnd
      _ = idxFrom 0 (seen ++ a :: t) := by
          rw [List.append_assoc, List.singleton_append]

/-- Vertex `(0,0,0)`. -/
def v3a : V3 := ⟨0, 0, 0⟩

/-- Vertex `(1,0,0)`. -/
def v3b : V3 := ⟨1, 0, 0⟩

/-- Vertex `(0,1,0)`. -/
def v3c : V3 := ⟨0, 1, 0⟩

/-- A mesh whose single triangle repeats its first vertex position as its
third: `Save3MF` assigns the repeated vertex index 2 although only 2
distinct vertices exist. -/
def c10BadMesh : List Triangle3 := [⟨![v3a, v3b, v3a]⟩]

/-- A mesh whose single triangle repeats its first vertex position as its
second: the repeated vertex is re-assigned index 1, which is still a
valid index (the indexing collapses two distinct vertices onto index 1
instead of overflowing). -/
def c10RepeatSafeMesh : List Triangle3 := [⟨![v3a, v3a, v3b]⟩]

/-- A mesh of three pairwise distinct vertices. -/
def c10DistinctMesh : List Triangle3 := [⟨![v3a, v3b, v3c]⟩]

/-- C10: `Save3MF`'s vertex indexing can go out of bounds — there is a
mesh (a triangle whose first and third vertices coincide) for which the
dedupe map stores an index equal to the number of distinct vertices, past
the end of `outputVertices` — while meshes with all-distinct vertex
positions are always indexed within bounds. -/
theorem C10_save3mf_indexing :
    (∃ mesh : List Triangle3, ¬ save3MFIndexSafe mesh) ∧
    (∀ mesh : List Triangle3,
      (meshVerts mesh).Nodup → save3MFIndexSafe mesh) := by
  constructor
  · refine ⟨c10BadMesh, ?_⟩
    have hba : v3b ≠ v3a := by simp [v3a, v3b]
    have hmap : save3MFVertexMap c10BadMesh = [(v3a, 2), (v3b, 1)] := by
      simp [save3MFVertexMap, meshVerts, c10BadMesh, goMapSet, hba]
    intro hsafe
    have h2 := hsafe (v3a, 2) (by rw [hmap]; simp)
    rw [hmap] at h2
    simp at h2
  · intro mesh h
    have hmap : save3MFVertexMap mesh = idxFrom 0 (meshVerts mesh) := by
      have hfold := foldl_goMapSet_nodup (meshVerts mesh) [] (by simpa using h)
      simpa [save3MFVertexMap, idxFrom] using hfold
    intro kv hkv
    rw [hmap] at hkv
    rw [hmap, idxFrom_length]
    have := idxFrom_snd_lt 0 (meshVerts mesh) kv hkv
    simpa using this

/-- C10 counterexample to the claim's final sentence ("only meshes with
all-distinct vertex positions are indexed within bounds"): the mesh whose
single triangle is `(a, a, b)` has a repeated vertex position yet every
stored index is within bounds. -/
theorem C10_repeated_vertices_can_stay_in_bounds :
    save3MFIndexSafe c10RepeatSafeMesh ∧
    ¬ (meshVerts c10RepeatSafeMesh).Nodup := by
  have hba : v3b ≠ v3a := by simp [v3a, v3b]
  have hmap : save3MFVertexMap c10RepeatSafeMesh = [(v3a, 1), (v3b, 1)] := by
    simp [save3MFVertexMap, meshVerts, c10RepeatSafeMesh, goMapSet, hba]
  constructor
  · intro kv hkv
    rw [hmap] at hkv ⊢
    rcases List.mem_cons.mp hkv with h1 | h1
    · simp [h1]
    · rcases List.mem_singleton.mp h1 with rfl
      norm_num
  · simp [meshVerts, c10RepeatSafeMesh]

/-- C10 witness: the all-distinct mesh `(a, b, c)` satisfies the Nodup
hypothesis concretely and is therefore indexed within bounds. -/
theorem C10_save3mf_indexing_witness :
    (meshVerts c10DistinctMesh).Nodup ∧ save3MFIndexSafe c10DistinctMesh := by
  have hnd : (meshVerts c10DistinctMesh).Nodup := by
    simp [meshVerts, c10DistinctMesh, v3a, v3b, v3c]
  exact ⟨hnd, C10_save3mf_indexing.2 c10DistinctMesh hnd⟩

end
